import Mathlib

/-!
Shallow embedding of the `pymonad` library (files `pymonad/maybe.py` and
`pymonad/writer.py`) and proofs about it.

Python dynamic values relevant to the library are modelled by `Pymonad.PyVal`
(None, bools, ints, strings, lists).  Python `==`, truthiness (`not x`) and
`+` are modelled by `pyEq`, `pyTruthy` and `pyAdd`; `pyAdd` is partial (a
`TypeError` is an `Except.error`), matching Python's `+` on mismatched types.
User-supplied functions passed to `map`/`bind` are modelled as functions into
`Except PyVal _`: an `Except.error e` models the function raising the
exception object `e`.
-/

namespace Pymonad

/-- A model of the Python values the library manipulates. -/
inductive PyVal where
  | pynone : PyVal
  | pybool : Bool → PyVal
  | pyint : Int → PyVal
  | pystr : String → PyVal
  | pylist : List PyVal → PyVal

/-- Python identity with the interned singleton `False`: `x is False` holds
exactly for the bool object `False`. -/
def PyVal.isFalseConst : PyVal → Bool
  | .pybool false => true
  | _ => false

/-- Numeric view used by Python `==` and `+`: bools are the ints 0/1. -/
def PyVal.toNum? : PyVal → Option Int
  | .pybool b => some (if b then 1 else 0)
  | .pyint n => some n
  | _ => none

/-- Python truthiness: `bool(x)`. -/
def pyTruthy : PyVal → Bool
  | .pynone => false
  | .pybool b => b
  | .pyint n => n != 0
  | .pystr s => s != ""
  | .pylist l => !l.isEmpty

mutual
/-- Python `==` on the modelled values (numeric types compare by value, so
`0 == False` is `True`; distinct non-numeric types compare unequal). -/
def pyEq : PyVal → PyVal → Bool
  | .pynone, .pynone => true
  | .pystr a, .pystr b => a == b
  | .pylist a, .pylist b => pyEqList a b
  | a, b =>
    match a.toNum?, b.toNum? with
    | some x, some y => x == y
    | _, _ => false

/-- Elementwise Python `==` on lists. -/
def pyEqList : List PyVal → List PyVal → Bool
  | [], [] => true
  | x :: xs, y :: ys => pyEq x y && pyEqList xs ys
  | _, _ => false
end

/-- Python `+` on the modelled values: string and list concatenation, numeric
addition; anything else raises `TypeError`. -/
def pyAdd : PyVal → PyVal → Except PyVal PyVal
  | .pystr a, .pystr b => .ok (.pystr (a ++ b))
  | .pylist a, .pylist b => .ok (.pylist (a ++ b))
  | a, b =>
    match a.toNum?, b.toNum? with
    | some x, some y => .ok (.pyint (x + y))
    | _, _ => .error (.pystr "TypeError")

/-- A monad value of `pymonad`: the two fields every instance carries
(`self.value` and `self.monoid`).  This is the `Maybe` class of
`pymonad/maybe.py`; the constructor `Maybe(value, monoid)` is `Maybe.mk`. -/
structure Maybe where
  value : PyVal
  monoid : PyVal

/-- `Just(value)` from `pymonad/maybe.py`: `Maybe(value, True)`. -/
def Just (value : PyVal) : Maybe := ⟨value, .pybool true⟩

/-- `Nothing = Maybe(None, False)` from `pymonad/maybe.py`. -/
def Nothing : Maybe := ⟨.pynone, .pybool false⟩

/-- `Maybe.insert`: `return Just(value)`. -/
def Maybe.insert (value : PyVal) : Maybe := Just value

/-- `Maybe.is_just`: `return self.monoid` (used as a boolean: truthiness). -/
def Maybe.is_just (self : Maybe) : Bool := pyTruthy self.monoid

/-- `Maybe.is_nothing`: `return not self.monoid`. -/
def Maybe.is_nothing (self : Maybe) : Bool := !pyTruthy self.monoid

/-- `Maybe.map`: if `self.is_nothing()` return `self`; else
`try: return Just(function(self.value)) except: return Nothing`. -/
def Maybe.map (self : Maybe) (function : PyVal → Except PyVal PyVal) : Maybe :=
  if self.is_nothing then self
  else
    match function self.value with
    | .ok v => Just v
    | .error _ => Nothing

/-- `Maybe.bind`: if `self.monoid is False` return `self`; else
`try: return kleisli_function(self.value) except: return Nothing`.
The guard is Python identity with the singleton `False`, modelled as
structural equality with the bool `false`. -/
def Maybe.bind (self : Maybe) (kleisli_function : PyVal → Except PyVal Maybe) : Maybe :=
  if self.monoid.isFalseConst then self
  else
    match kleisli_function self.value with
    | .ok r => r
    | .error _ => Nothing

/-- `Maybe.map` instrumented with the list of arguments the mapped function
was invoked on; the control flow is exactly that of `Maybe.map`. -/
def Maybe.mapT (self : Maybe) (function : PyVal → Except PyVal PyVal) :
    Maybe × List PyVal :=
  if self.is_nothing then (self, [])
  else
    match function self.value with
    | .ok v => (Just v, [self.value])
    | .error _ => (Nothing, [self.value])

/-- `Maybe.bind` instrumented with the list of arguments the Kleisli function
was invoked on; the control flow is exactly that of `Maybe.bind`. -/
def Maybe.bindT (self : Maybe) (kleisli_function : PyVal → Except PyVal Maybe) :
    Maybe × List PyVal :=
  if self.monoid.isFalseConst then (self, [])
  else
    match kleisli_function self.value with
    | .ok r => (r, [self.value])
    | .error _ => (Nothing, [self.value])

/-- A `Maybe` whose `value` field holds a one-argument Python function, as
expected by the receiver of `Maybe.amap`. -/
structure MaybeF where
  value : PyVal → Except PyVal PyVal
  monoid : PyVal

/-- `is_nothing` on a function-valued `Maybe` (same body: `not self.monoid`). -/
def MaybeF.is_nothing (self : MaybeF) : Bool := !pyTruthy self.monoid

/-- `Maybe.amap`: if `self.is_nothing() or monad_value.is_nothing()` return
`Nothing`; else `return monad_value.map(self.value)`. -/
def MaybeF.amap (self : MaybeF) (monad_value : Maybe) : Maybe :=
  if self.is_nothing || monad_value.is_nothing then Nothing
  else monad_value.map self.value

/-- An arbitrary Python object as seen by `__eq__`: it may or may not have
`value` and `monoid` attributes; a missing attribute raises
`AttributeError` when accessed. -/
structure PyObj where
  valueAttr : Option PyVal
  monoidAttr : Option PyVal

/-- The object view of a `Maybe` instance (it has both attributes). -/
def Maybe.toObj (self : Maybe) : PyObj := ⟨some self.value, some self.monoid⟩

/-- `Maybe.__eq__`: `return self.value == other.value and self.monoid ==
other.monoid`.  Python evaluates left to right: a missing `value` attribute on
`other` raises; if the value comparison is false, `and` short-circuits and
`other.monoid` is never accessed.  An `AttributeError` is `Except.error ()`. -/
def Maybe.eq (self : Maybe) (other : PyObj) : Except Unit Bool :=
  match other.valueAttr with
  | Option.none => .error ()
  | some v =>
    if pyEq self.value v then
      match other.monoidAttr with
      | Option.none => .error ()
      | some mo => .ok (pyEq self.monoid mo)
    else .ok false

/-- A Writer monad value from `pymonad/writer.py`: `Writer(value, monoid)`.
The log (`monoid`) field is an arbitrary Python value; the library combines
logs with Python `+`. -/
structure Writer where
  value : PyVal
  monoid : PyVal

/-- `Writer.insert`: `return Writer(value, '')` — the log of an inserted
value is the empty *string*, whatever log type the rest of the chain uses. -/
def Writer.insert (value : PyVal) : Writer := ⟨value, .pystr ""⟩

/-- `Writer.bind`: `result = kleisli_function(self.value); return
Writer(result.value, self.monoid + result.monoid)`.  An exception raised by
the Kleisli function, or a `TypeError` from `+`, propagates to the caller. -/
def Writer.bind (self : Writer) (kleisli_function : PyVal → Except PyVal Writer) :
    Except PyVal Writer :=
  match kleisli_function self.value with
  | .error e => .error e
  | .ok result =>
    match pyAdd self.monoid result.monoid with
    | .error e => .error e
    | .ok l => .ok ⟨result.value, l⟩

/-- `Writer.map`: `return Writer(function(self.value), self.monoid)`.  An
exception raised by the function propagates to the caller. -/
def Writer.map (self : Writer) (function : PyVal → Except PyVal PyVal) :
    Except PyVal Writer :=
  match function self.value with
  | .error e => .error e
  | .ok v => .ok ⟨v, self.monoid⟩

/-- The object view of a `Writer` instance (it has both attributes). -/
def Writer.toObj (self : Writer) : PyObj := ⟨some self.value, some self.monoid⟩

/-- `Writer.__eq__`: `return self.value == other.value and self.monoid ==
other.monoid`, with the same left-to-right attribute access and
short-circuiting as `Maybe.__eq__`. -/
def Writer.eq (self : Writer) (other : PyObj) : Except Unit Bool :=
  match other.valueAttr with
  | Option.none => .error ()
  | some v =>
    if pyEq self.value v then
      match other.monoidAttr with
      | Option.none => .error ()
      | some mo => .ok (pyEq self.monoid mo)
    else .ok false

/-- Example Kleisli function `x -> Writer(x + 1, "a")` from the spec's
log-ordering scenario; `x + 1` is Python `+`, so a non-numeric `x` raises. -/
def kleisliLogA (x : PyVal) : Except PyVal Writer :=
  match pyAdd x (.pyint 1) with
  | .error e => .error e
  | .ok v => .ok ⟨v, .pystr "a"⟩

/-- Example Kleisli function `x -> Writer(x + 1, "b")`. -/
def kleisliLogB (x : PyVal) : Except PyVal Writer :=
  match pyAdd x (.pyint 1) with
  | .error e => .error e
  | .ok v => .ok ⟨v, .pystr "b"⟩

/-- C1: if the user function raises on `x`, both `Just(x).map(f)` and
`Just(x).bind(f)` evaluate to `Nothing`; `Maybe.map`/`Maybe.bind` are total
(their result type is `Maybe`, not `Except _ Maybe`), so the exception is
never propagated to the caller. -/
theorem C1_maybe_exception_containment (x : PyVal)
    (f : PyVal → Except PyVal PyVal) (g : PyVal → Except PyVal Maybe)
    (e e' : PyVal) (hf : f x = .error e) (hg : g x = .error e') :
    (Just x).map f = Nothing ∧ (Just x).bind g = Nothing := by
  constructor
  · simp [Maybe.map, Maybe.is_nothing, Just, pyTruthy, hf]
  · simp [Maybe.bind, Just, PyVal.isFalseConst, hg]

theorem C1_maybe_exception_containment_witness :
    (Just (.pyint 1)).map (fun _ => .error (.pystr "boom")) = Nothing ∧
    (Just (.pyint 1)).bind (fun _ => .error (.pystr "boom")) = Nothing :=
  C1_maybe_exception_containment (.pyint 1) _ _ (.pystr "boom") (.pystr "boom")
    rfl rfl

/-- C5: on a receiver whose tag is the bool `False` (in particular the
canonical `Nothing`), `map` and `bind` return the receiver itself unchanged
(the instrumented versions show the result is the receiver, with its `value`
placeholder untouched, and that the invocation trace is empty: the
user function is never invoked). -/
theorem C5_nothing_short_circuit (m : Maybe)
    (f : PyVal → Except PyVal PyVal) (g : PyVal → Except PyVal Maybe)
    (h : m.monoid = .pybool false) :
    m.map f = m ∧ m.bind g = m ∧ m.mapT f = (m, []) ∧ m.bindT g = (m, []) := by
  refine ⟨?_, ?_, ?_, ?_⟩ <;>
    simp [Maybe.map, Maybe.bind, Maybe.mapT, Maybe.bindT, Maybe.is_nothing,
      h, pyTruthy, PyVal.isFalseConst]

theorem C5_nothing_short_circuit_witness :
    Nothing.map (fun v => .ok v) = Nothing ∧
    Nothing.bind (fun v => .ok (Just v)) = Nothing ∧
    Nothing.mapT (fun v => .ok v) = (Nothing, []) ∧
    Nothing.bindT (fun v => .ok (Just v)) = (Nothing, []) :=
  C5_nothing_short_circuit Nothing (fun v => .ok v) (fun v => .ok (Just v)) rfl

/-- C10: a `Maybe` built with the falsy non-`False` tag `0` is reported
absent by `is_nothing`, so `map` short-circuits without invoking the
function, yet `bind` (whose guard is identity with `False`) invokes the
Kleisli function on the stored value. -/
theorem C10_falsy_tag_map_bind_disagree (v : PyVal)
    (f : PyVal → Except PyVal PyVal) (g : PyVal → Except PyVal Maybe) :
    (Maybe.mk v (.pyint 0)).is_nothing = true ∧
    (Maybe.mk v (.pyint 0)).mapT f = (⟨v, .pyint 0⟩, []) ∧
    (Maybe.mk v (.pyint 0)).bindT g =
      ((match g v with | .ok r => r | .error _ => Nothing), [v]) := by
  refine ⟨rfl, ?_, ?_⟩
  · simp [Maybe.mapT, Maybe.is_nothing, pyTruthy]
  · cases hg : g v <;> simp [Maybe.bindT, PyVal.isFalseConst, hg]

/-- C7: `m.amap(n)` is `Nothing` whenever `m` or `n` is absent (by the
truthiness test `is_nothing`), and otherwise equals `n.map(m.value)`. -/
theorem C7_amap_absent_or_map (m : MaybeF) (n : Maybe) :
    ((m.is_nothing || n.is_nothing) = true → m.amap n = Nothing) ∧
    ((m.is_nothing || n.is_nothing) = false → m.amap n = n.map m.value) := by
  constructor <;> intro h <;> simp [MaybeF.amap, h]

theorem C7_amap_absent_or_map_witness :
    (MaybeF.mk (fun v => .ok v) (.pybool false)).amap (Just (.pyint 1)) = Nothing ∧
    (MaybeF.mk (fun v => .ok v) (.pybool true)).amap (Just (.pyint 1)) =
      (Just (.pyint 1)).map (fun v => .ok v) :=
  ⟨(C7_amap_absent_or_map ⟨fun v => .ok v, .pybool false⟩ (Just (.pyint 1))).1 rfl,
   (C7_amap_absent_or_map ⟨fun v => .ok v, .pybool true⟩ (Just (.pyint 1))).2 rfl⟩

/-- C4 counterexample: two absent instances (tag `False`) whose `value`
placeholders differ (`Maybe(0, False)` and `Maybe(None, False)`) compare
unequal, refuting "any two absent instances are equal to each other
regardless of the placeholder held in their value field". -/
theorem C4_absent_placeholder_cex :
    Maybe.eq ⟨.pyint 0, .pybool false⟩ (Maybe.toObj ⟨.pynone, .pybool false⟩)
      = .ok false := rfl

/-- C4 amended: two Maybe values are equal exactly when both their `value`
and `monoid` fields compare equal under Python `==`; in particular
`Just(5) == Just(5)`, `Just(5) != Just(6)`, `Nothing == Nothing`,
`Just(5) != Nothing`; two absent instances are equal exactly when their
placeholder values also compare equal. -/
theorem C4_eq_structural (m n : Maybe) :
    m.eq n.toObj = .ok (pyEq m.value n.value && pyEq m.monoid n.monoid) ∧
    (Just (.pyint 5)).eq (Just (.pyint 5)).toObj = .ok true ∧
    (Just (.pyint 5)).eq (Just (.pyint 6)).toObj = .ok false ∧
    Nothing.eq Nothing.toObj = .ok true ∧
    (Just (.pyint 5)).eq Nothing.toObj = .ok false := by
  refine ⟨?_, rfl, rfl, rfl, rfl⟩
  cases hEq : pyEq m.value n.value <;> simp [Maybe.eq, Maybe.toObj, hEq]

/-- C2 counterexample: instantiated at the list log type (a monoid under `+`
with identity `[]`), `Writer.insert(0)` does not carry that identity as its
tag — the tag is the empty string, not the empty list. -/
theorem C2_insert_tag_cex :
    (Writer.insert (.pyint 0)).monoid ≠ PyVal.pylist [] := by
  intro h
  exact PyVal.noConfusion h

/-- C2 amended: `Writer.insert(x)` returns a Writer whose `value` is `x` and
whose tag is always the empty string `''` — the identity element of the
string log type only, not of whatever log type the chain otherwise uses. -/
theorem C2_insert_value_and_tag (x : PyVal) :
    (Writer.insert x).value = x ∧ (Writer.insert x).monoid = .pystr "" :=
  ⟨rfl, rfl⟩

/-- C3 counterexample: over the list log type, Writer right identity fails —
`Writer(0, []).bind(Writer.insert)` raises `TypeError` (the code computes
`[] + ''`), so it does not return the original Writer. -/
theorem C3_right_identity_cex :
    (Writer.mk (.pyint 0) (.pylist [])).bind (fun v => .ok (Writer.insert v))
        = .error (.pystr "TypeError") ∧
    (Writer.mk (.pyint 0) (.pylist [])).bind (fun v => .ok (Writer.insert v))
        ≠ .ok (Writer.mk (.pyint 0) (.pylist [])) := by
  refine ⟨rfl, ?_⟩
  intro h
  exact Except.noConfusion h

/-- C3 amended: monad right identity holds for every Maybe value with a
boolean tag (`m.bind(Maybe.insert) = m`) and for every Writer value whose log
is a string (`w.bind(Writer.insert)` returns `w`); for non-string logs such
as lists, `bind(insert)` instead raises `TypeError`. -/
theorem C3_right_identity (m : Maybe) (w : Writer) (s : String)
    (hm : m.monoid = .pybool true ∨ m.monoid = .pybool false)
    (hw : w.monoid = .pystr s) :
    m.bind (fun v => .ok (Maybe.insert v)) = m ∧
    w.bind (fun v => .ok (Writer.insert v)) = .ok w := by
  constructor
  · rcases hm with hm | hm
    · cases m
      simp only at hm
      subst hm
      simp [Maybe.bind, PyVal.isFalseConst, Maybe.insert, Just]
    · simp [Maybe.bind, hm, PyVal.isFalseConst]
  · cases w
    simp only at hw
    subst hw
    simp [Writer.bind, Writer.insert, pyAdd, String.append_empty]

theorem C3_right_identity_witness :
    (Just (.pyint 1)).bind (fun v => .ok (Maybe.insert v)) = Just (.pyint 1) ∧
    (Writer.mk (.pyint 1) (.pystr "x")).bind (fun v => .ok (Writer.insert v))
      = .ok (Writer.mk (.pyint 1) (.pystr "x")) :=
  C3_right_identity (Just (.pyint 1)) ⟨.pyint 1, .pystr "x"⟩ "x" (Or.inl rfl) rfl

/-- C6 counterexample: with mismatched log types — a string-logged Writer and
a Kleisli function returning a list-logged Writer — `bind` does not return a
Writer carrying the combined log at all: Python `+` on the two logs raises
`TypeError`, refuting the claim as stated for this input. -/
theorem C6_mismatched_log_cex :
    (Writer.mk (.pyint 0) (.pystr "a")).bind
        (fun v => .ok (Writer.mk v (.pylist []))) = .error (.pystr "TypeError") :=
  rfl

/-- C6 amended: for every Writer `w` and Kleisli function `f` with
`f(w.value) = r`, whenever Python `+` combines `w`'s log (left) with `r`'s
log (right) into `l`, `w.bind(f)` returns a Writer with value `r.value` and
log `l`; when the logs cannot be combined (mismatched log types) the
`TypeError` from `+` propagates instead of a Writer being returned.  In
particular the two-step chain from `insert(0)` through logs "a" then "b"
yields log "ab" (not "ba"), and list logs likewise concatenate left log
first. -/
theorem C6_writer_bind_log_order (w : Writer) (f : PyVal → Except PyVal Writer)
    (r : Writer) (l : PyVal) (hf : f w.value = .ok r)
    (hadd : pyAdd w.monoid r.monoid = .ok l) :
    w.bind f = .ok ⟨r.value, l⟩ ∧
    (Writer.insert (.pyint 0)).bind kleisliLogA = .ok ⟨.pyint 1, .pystr "a"⟩ ∧
    (Writer.mk (.pyint 1) (.pystr "a")).bind kleisliLogB
      = .ok ⟨.pyint 2, .pystr "ab"⟩ ∧
    (Writer.mk (.pyint 1) (.pylist [.pyint 1])).bind
        (fun v => .ok (Writer.mk v (.pylist [.pyint 2])))
      = .ok ⟨.pyint 1, .pylist [.pyint 1, .pyint 2]⟩ := by
  refine ⟨?_, rfl, rfl, rfl⟩
  simp [Writer.bind, hf, hadd]

theorem C6_writer_bind_log_order_witness :
    (Writer.mk (.pyint 1) (.pystr "a")).bind kleisliLogB
        = .ok ⟨.pyint 2, .pystr "ab"⟩ :=
  (C6_writer_bind_log_order ⟨.pyint 1, .pystr "a"⟩ kleisliLogB
      ⟨.pyint 2, .pystr "b"⟩ (.pystr "ab") rfl rfl).1

/-- C8: exceptions raised by the user function inside `Writer.map` and
`Writer.bind` propagate unmodified to the caller (the very exception object
`e` is rethrown), and when the function does not raise, `w.map(f)` returns a
Writer with value `f(w.value)` and the log unchanged. -/
theorem C8_writer_exception_propagation (w : Writer)
    (f : PyVal → Except PyVal PyVal) (g : PyVal → Except PyVal Writer)
    (e e' : PyVal) (hf : f w.value = .error e) (hg : g w.value = .error e') :
    w.map f = .error e ∧ w.bind g = .error e' ∧
    ∀ f2 v2, f2 w.value = Except.ok v2 → w.map f2 = .ok ⟨v2, w.monoid⟩ := by
  refine ⟨?_, ?_, ?_⟩
  · simp [Writer.map, hf]
  · simp [Writer.bind, hg]
  · intro f2 v2 h2
    simp [Writer.map, h2]

theorem C8_writer_exception_propagation_witness :
    (Writer.mk (.pyint 1) (.pystr "x")).map (fun _ => .error (.pystr "boom"))
        = .error (.pystr "boom") ∧
    (Writer.mk (.pyint 1) (.pystr "x")).bind (fun _ => .error (.pystr "boom"))
        = .error (.pystr "boom") ∧
    (Writer.mk (.pyint 1) (.pystr "x")).map (fun v => .ok v)
        = .ok ⟨.pyint 1, .pystr "x"⟩ := by
  have h := C8_writer_exception_propagation ⟨.pyint 1, .pystr "x"⟩
    (fun _ => .error (.pystr "boom")) (fun _ => .error (.pystr "boom"))
    (.pystr "boom") (.pystr "boom") rfl rfl
  exact ⟨h.1, h.2.1, h.2.2 (fun v => .ok v) (.pyint 1) rfl⟩

/-- C9 counterexample: comparing `Just(5)` to an object that has a `value`
attribute equal to `6` but no `monoid` attribute returns `False` (the `and`
short-circuits before `other.monoid` is read) instead of raising
`AttributeError`, refuting "comparing a Maybe or Writer to an object lacking
a value or monoid field raises an attribute error rather than returning
False". -/
theorem C9_missing_attr_cex :
    (Just (.pyint 5)).eq ⟨some (.pyint 6), Option.none⟩ = .ok false := rfl

/-- C9 amended: equality on Maybe and Writer is purely structural with no
type check — a Maybe equals any object whose `value` and `monoid` attributes
compare equal to its own (in particular `Nothing == Writer(None, False)`);
comparing to an object with no `value` attribute raises `AttributeError`;
comparing to an object that has `value` but no `monoid` raises
`AttributeError` exactly when the `value` fields compare equal, and returns
`False` when they differ. -/
theorem C9_structural_eq (m : Maybe) (w : Writer) (v mo : PyVal) :
    (pyEq m.value w.value = true → pyEq m.monoid w.monoid = true →
      m.eq w.toObj = .ok true) ∧
    Nothing.eq (Writer.mk .pynone (.pybool false)).toObj = .ok true ∧
    m.eq ⟨Option.none, some mo⟩ = .error () ∧
    w.eq ⟨Option.none, some mo⟩ = .error () ∧
    (pyEq m.value v = true → m.eq ⟨some v, Option.none⟩ = .error ()) ∧
    (pyEq m.value v = false → m.eq ⟨some v, Option.none⟩ = .ok false) := by
  refine ⟨?_, rfl, rfl, rfl, ?_, ?_⟩
  · intro h1 h2
    simp [Maybe.eq, Writer.toObj, h1, h2]
  · intro h1
    simp [Maybe.eq, h1]
  · intro h1
    simp [Maybe.eq, h1]

theorem C9_structural_eq_witness :
    Nothing.eq (Writer.mk .pynone (.pybool false)).toObj = .ok true ∧
    Nothing.eq ⟨some .pynone, Option.none⟩ = .error () ∧
    Nothing.eq ⟨some (.pyint 7), Option.none⟩ = .ok false :=
  ⟨(C9_structural_eq Nothing ⟨.pynone, .pybool false⟩ (.pyint 7) .pynone).1 rfl rfl,
   (C9_structural_eq Nothing ⟨.pynone, .pybool false⟩ .pynone .pynone).2.2.2.2.1 rfl,
   (C9_structural_eq Nothing ⟨.pynone, .pybool false⟩ (.pyint 7) .pynone).2.2.2.2.2 rfl⟩

end Pymonad
